import Mathlib

/-!
Verification of the aerospace-units library (Rust crate `aerospace_units`).

Each quantity kind is a newtype over an `f64` scalar stored in one canonical
unit.  The development embeds the scalars as real numbers: every constructor,
accessor and operator below is a direct transcription of the corresponding
Rust function, with the same literal conversion factors.  A second, explicitly
IEEE-flavoured model (`F64`) is introduced further down for the claims that
talk about infinities, NaN and the partial comparison semantics of `f64`.
-/

namespace Aero

noncomputable section

/-- `SpecificImpulse::G0` (src/units/specific_impulse.rs): standard gravity. -/
def SpecificImpulseG0 : ℝ := 9.80665

/-- `struct Length { meters: f64 }` (src/units/length.rs). -/
structure Length where
  meters : ℝ

/-- `Length::from_meters`. -/
def Length.from_meters (m : ℝ) : Length := ⟨m⟩

/-- `Length::from_kilometers`: `km * 1000.0`. -/
def Length.from_kilometers (km : ℝ) : Length := ⟨km * 1000⟩

/-- `Length::from_feet`: `ft * 0.3048`. -/
def Length.from_feet (ft : ℝ) : Length := ⟨ft * 0.3048⟩

/-- `Length::from_nautical_miles`: `nm * 1852.0`. -/
def Length.from_nautical_miles (nm : ℝ) : Length := ⟨nm * 1852⟩

/-- `Length::from_miles`: `mi * 1609.344`. -/
def Length.from_miles (mi : ℝ) : Length := ⟨mi * 1609.344⟩

/-- `Length::as_meters`. -/
def Length.as_meters (l : Length) : ℝ := l.meters

/-- `Length::as_kilometers`: `meters / 1000.0`. -/
def Length.as_kilometers (l : Length) : ℝ := l.meters / 1000

/-- `Length::as_feet`: `meters / 0.3048`. -/
def Length.as_feet (l : Length) : ℝ := l.meters / 0.3048

/-- `Length::as_nautical_miles`: `meters / 1852.0`. -/
def Length.as_nautical_miles (l : Length) : ℝ := l.meters / 1852

/-- `Length::as_miles`: `meters / 1609.344`. -/
def Length.as_miles (l : Length) : ℝ := l.meters / 1609.344

/-- `impl Add for Length`. -/
def Length.add (a b : Length) : Length := ⟨a.meters + b.meters⟩

/-- `impl Sub for Length`. -/
def Length.sub (a b : Length) : Length := ⟨a.meters - b.meters⟩

/-- `impl Mul f64 for Length`. -/
def Length.mul_scalar (a : Length) (s : ℝ) : Length := ⟨a.meters * s⟩

/-- `impl Div f64 for Length`. -/
def Length.div_scalar (a : Length) (s : ℝ) : Length := ⟨a.meters / s⟩

/-- `impl Div Length for Length` (output `f64`): the dimensionless ratio. -/
def Length.div_same (a b : Length) : ℝ := a.meters / b.meters

/-- `struct Velocity { meters_per_second: f64 }` (src/units/velocity.rs). -/
structure Velocity where
  meters_per_second : ℝ

/-- `Velocity::from_meters_per_second`. -/
def Velocity.from_meters_per_second (mps : ℝ) : Velocity := ⟨mps⟩

/-- `Velocity::from_kilometers_per_second`: `kmps * 1000.0`. -/
def Velocity.from_kilometers_per_second (kmps : ℝ) : Velocity := ⟨kmps * 1000⟩

/-- `Velocity::from_kilometers_per_hour`: `kmph / 3.6`. -/
def Velocity.from_kilometers_per_hour (kmph : ℝ) : Velocity := ⟨kmph / 3.6⟩

/-- `Velocity::from_feet_per_second`: `fps * 0.3048`. -/
def Velocity.from_feet_per_second (fps : ℝ) : Velocity := ⟨fps * 0.3048⟩

/-- `Velocity::from_knots`: `kts * 0.514444`. -/
def Velocity.from_knots (kts : ℝ) : Velocity := ⟨kts * 0.514444⟩

/-- `Velocity::from_miles_per_hour`: `mph * 0.44704`. -/
def Velocity.from_miles_per_hour (mph : ℝ) : Velocity := ⟨mph * 0.44704⟩

/-- `Velocity::from_mach`: `mach * speed_of_sound_mps`. -/
def Velocity.from_mach (mach sos : ℝ) : Velocity := ⟨mach * sos⟩

/-- `Velocity::as_meters_per_second`. -/
def Velocity.as_meters_per_second (v : Velocity) : ℝ := v.meters_per_second

/-- `Velocity::as_kilometers_per_second`: `mps / 1000.0`. -/
def Velocity.as_kilometers_per_second (v : Velocity) : ℝ := v.meters_per_second / 1000

/-- `Velocity::as_kilometers_per_hour`: `mps * 3.6`. -/
def Velocity.as_kilometers_per_hour (v : Velocity) : ℝ := v.meters_per_second * 3.6

/-- `Velocity::as_feet_per_second`: `mps / 0.3048`. -/
def Velocity.as_feet_per_second (v : Velocity) : ℝ := v.meters_per_second / 0.3048

/-- `Velocity::as_knots`: `mps / 0.514444`. -/
def Velocity.as_knots (v : Velocity) : ℝ := v.meters_per_second / 0.514444

/-- `Velocity::as_miles_per_hour`: `mps / 0.44704`. -/
def Velocity.as_miles_per_hour (v : Velocity) : ℝ := v.meters_per_second / 0.44704

/-- `Velocity::as_mach`: `mps / speed_of_sound_mps`. -/
def Velocity.as_mach (v : Velocity) (sos : ℝ) : ℝ := v.meters_per_second / sos

/-- `impl Add for Velocity`. -/
def Velocity.add (a b : Velocity) : Velocity := ⟨a.meters_per_second + b.meters_per_second⟩

/-- `impl Sub for Velocity`. -/
def Velocity.sub (a b : Velocity) : Velocity := ⟨a.meters_per_second - b.meters_per_second⟩

/-- `impl Div Velocity for Velocity` (output `f64`). -/
def Velocity.div_same (a b : Velocity) : ℝ := a.meters_per_second / b.meters_per_second

/-- `struct Mass { kilograms: f64 }` (src/units/mass.rs). -/
structure Mass where
  kilograms : ℝ

/-- `Mass::from_kilograms`. -/
def Mass.from_kilograms (kg : ℝ) : Mass := ⟨kg⟩

/-- `Mass::from_grams`: `g / 1000.0`. -/
def Mass.from_grams (g : ℝ) : Mass := ⟨g / 1000⟩

/-- `Mass::from_tonnes`: `t * 1000.0`. -/
def Mass.from_tonnes (t : ℝ) : Mass := ⟨t * 1000⟩

/-- `Mass::from_pounds`: `lb * 0.453592`. -/
def Mass.from_pounds (lb : ℝ) : Mass := ⟨lb * 0.453592⟩

/-- `Mass::from_slugs`: `slugs * 14.5939`. -/
def Mass.from_slugs (slugs : ℝ) : Mass := ⟨slugs * 14.5939⟩

/-- `Mass::as_kilograms`. -/
def Mass.as_kilograms (m : Mass) : ℝ := m.kilograms

/-- `Mass::as_grams`: `kilograms * 1000.0`. -/
def Mass.as_grams (m : Mass) : ℝ := m.kilograms * 1000

/-- `Mass::as_tonnes`: `kilograms / 1000.0`. -/
def Mass.as_tonnes (m : Mass) : ℝ := m.kilograms / 1000

/-- `Mass::as_pounds`: `kilograms / 0.453592`. -/
def Mass.as_pounds (m : Mass) : ℝ := m.kilograms / 0.453592

/-- `Mass::as_slugs`: `kilograms / 14.5939`. -/
def Mass.as_slugs (m : Mass) : ℝ := m.kilograms / 14.5939

/-- `impl Add for Mass`. -/
def Mass.add (a b : Mass) : Mass := ⟨a.kilograms + b.kilograms⟩

/-- `impl Sub for Mass`. -/
def Mass.sub (a b : Mass) : Mass := ⟨a.kilograms - b.kilograms⟩

/-- `impl Div Mass for Mass` (output `f64`): the mass ratio. -/
def Mass.div_same (a b : Mass) : ℝ := a.kilograms / b.kilograms

/-- `struct Force { newtons: f64 }` (src/units/force.rs). -/
structure Force where
  newtons : ℝ

/-- `Force::from_newtons`. -/
def Force.from_newtons (n : ℝ) : Force := ⟨n⟩

/-- `Force::from_kilonewtons`: `kn * 1000.0`. -/
def Force.from_kilonewtons (kn : ℝ) : Force := ⟨kn * 1000⟩

/-- `Force::from_meganewtons`: `mn * 1_000_000.0`. -/
def Force.from_meganewtons (mn : ℝ) : Force := ⟨mn * 1000000⟩

/-- `Force::from_pounds_force`: `lbf * 4.44822`. -/
def Force.from_pounds_force (lbf : ℝ) : Force := ⟨lbf * 4.44822⟩

/-- `Force::from_kilopounds_force`: `klbf * 4448.22`. -/
def Force.from_kilopounds_force (klbf : ℝ) : Force := ⟨klbf * 4448.22⟩

/-- `Force::as_newtons`. -/
def Force.as_newtons (f : Force) : ℝ := f.newtons

/-- `Force::as_kilonewtons`: `newtons / 1000.0`. -/
def Force.as_kilonewtons (f : Force) : ℝ := f.newtons / 1000

/-- `Force::as_meganewtons`: `newtons / 1_000_000.0`. -/
def Force.as_meganewtons (f : Force) : ℝ := f.newtons / 1000000

/-- `Force::as_pounds_force`: `newtons / 4.44822`. -/
def Force.as_pounds_force (f : Force) : ℝ := f.newtons / 4.44822

/-- `Force::as_kilopounds_force`: `newtons / 4448.22`. -/
def Force.as_kilopounds_force (f : Force) : ℝ := f.newtons / 4448.22

/-- `impl Add for Force`. -/
def Force.add (a b : Force) : Force := ⟨a.newtons + b.newtons⟩

/-- `impl Sub for Force`. -/
def Force.sub (a b : Force) : Force := ⟨a.newtons - b.newtons⟩

/-- `impl Div Force for Force` (output `f64`): thrust-to-weight ratio. -/
def Force.div_same (a b : Force) : ℝ := a.newtons / b.newtons

/-- `struct Pressure { pascals: f64 }` (src/units/pressure.rs). -/
structure Pressure where
  pascals : ℝ

/-- `Pressure::from_pascals`. -/
def Pressure.from_pascals (pa : ℝ) : Pressure := ⟨pa⟩

/-- `Pressure::from_kilopascals`: `kpa * 1000.0`. -/
def Pressure.from_kilopascals (kpa : ℝ) : Pressure := ⟨kpa * 1000⟩

/-- `Pressure::from_megapascals`: `mpa * 1_000_000.0`. -/
def Pressure.from_megapascals (mpa : ℝ) : Pressure := ⟨mpa * 1000000⟩

/-- `Pressure::from_bar`: `bar * 100_000.0`. -/
def Pressure.from_bar (bar : ℝ) : Pressure := ⟨bar * 100000⟩

/-- `Pressure::from_atmospheres`: `atm * 101_325.0`. -/
def Pressure.from_atmospheres (atm : ℝ) : Pressure := ⟨atm * 101325⟩

/-- `Pressure::from_psi`: `psi * 6894.757`. -/
def Pressure.from_psi (psi : ℝ) : Pressure := ⟨psi * 6894.757⟩

/-- `Pressure::from_inches_hg`: `inhg * 3386.389`. -/
def Pressure.from_inches_hg (inhg : ℝ) : Pressure := ⟨inhg * 3386.389⟩

/-- `Pressure::from_mmhg`: `mmhg * 133.322`. -/
def Pressure.from_mmhg (mmhg : ℝ) : Pressure := ⟨mmhg * 133.322⟩

/-- `Pressure::as_pascals`. -/
def Pressure.as_pascals (p : Pressure) : ℝ := p.pascals

/-- `Pressure::as_kilopascals`: `pascals / 1000.0`. -/
def Pressure.as_kilopascals (p : Pressure) : ℝ := p.pascals / 1000

/-- `Pressure::as_megapascals`: `pascals / 1_000_000.0`. -/
def Pressure.as_megapascals (p : Pressure) : ℝ := p.pascals / 1000000

/-- `Pressure::as_bar`: `pascals / 100_000.0`. -/
def Pressure.as_bar (p : Pressure) : ℝ := p.pascals / 100000

/-- `Pressure::as_atmospheres`: `pascals / 101_325.0`. -/
def Pressure.as_atmospheres (p : Pressure) : ℝ := p.pascals / 101325

/-- `Pressure::as_psi`: `pascals / 6894.757`. -/
def Pressure.as_psi (p : Pressure) : ℝ := p.pascals / 6894.757

/-- `Pressure::as_inches_hg`: `pascals / 3386.389`. -/
def Pressure.as_inches_hg (p : Pressure) : ℝ := p.pascals / 3386.389

/-- `Pressure::as_mmhg`: `pascals / 133.322`. -/
def Pressure.as_mmhg (p : Pressure) : ℝ := p.pascals / 133.322

/-- `Pressure::sea_level`: `Self::from_atmospheres(1.0)`. -/
def Pressure.sea_level : Pressure := Pressure.from_atmospheres 1

/-- `impl Add for Pressure`. -/
def Pressure.add (a b : Pressure) : Pressure := ⟨a.pascals + b.pascals⟩

/-- `impl Sub for Pressure`. -/
def Pressure.sub (a b : Pressure) : Pressure := ⟨a.pascals - b.pascals⟩

/-- `impl Div Pressure for Pressure` (output `f64`). -/
def Pressure.div_same (a b : Pressure) : ℝ := a.pascals / b.pascals

/-- `struct Angle { radians: f64 }` (src/units/angle.rs). -/
structure Angle where
  radians : ℝ

/-- `Angle::from_radians`. -/
def Angle.from_radians (rad : ℝ) : Angle := ⟨rad⟩

/-- `Angle::from_degrees`: `deg * PI / 180.0`. -/
def Angle.from_degrees (deg : ℝ) : Angle := ⟨deg * Real.pi / 180⟩

/-- `Angle::from_arcminutes`: `arcmin * PI / (180.0 * 60.0)`. -/
def Angle.from_arcminutes (arcmin : ℝ) : Angle := ⟨arcmin * Real.pi / (180 * 60)⟩

/-- `Angle::from_arcseconds`: `arcsec * PI / (180.0 * 3600.0)`. -/
def Angle.from_arcseconds (arcsec : ℝ) : Angle := ⟨arcsec * Real.pi / (180 * 3600)⟩

/-- `Angle::from_revolutions`: `rev * 2.0 * PI`. -/
def Angle.from_revolutions (rev : ℝ) : Angle := ⟨rev * 2 * Real.pi⟩

/-- `Angle::as_radians`. -/
def Angle.as_radians (a : Angle) : ℝ := a.radians

/-- `Angle::as_degrees`: `radians * 180.0 / PI`. -/
def Angle.as_degrees (a : Angle) : ℝ := a.radians * 180 / Real.pi

/-- `Angle::as_arcminutes`: `radians * 180.0 * 60.0 / PI`. -/
def Angle.as_arcminutes (a : Angle) : ℝ := a.radians * 180 * 60 / Real.pi

/-- `Angle::as_arcseconds`: `radians * 180.0 * 3600.0 / PI`. -/
def Angle.as_arcseconds (a : Angle) : ℝ := a.radians * 180 * 3600 / Real.pi

/-- `Angle::as_revolutions`: `radians / (2.0 * PI)`. -/
def Angle.as_revolutions (a : Angle) : ℝ := a.radians / (2 * Real.pi)

/-- `f64::trunc`-style truncation toward zero, as used by the Rust `%`
remainder on `f64`: floor for nonnegative arguments, ceiling otherwise. -/
def ftrunc (x : ℝ) : ℤ := if 0 ≤ x then ⌊x⌋ else ⌈x⌉

/-- The Rust `%` remainder on `f64` (same sign as the dividend):
`x % y = x - y * trunc(x / y)`. -/
def frem (x y : ℝ) : ℝ := x - y * (ftrunc (x / y) : ℝ)

/-- `Angle::normalize`: reduce modulo `2 * PI`, then add `2 * PI` once if the
remainder is negative. -/
def Angle.normalize (a : Angle) : Angle :=
  if frem a.radians (2 * Real.pi) < 0 then
    ⟨frem a.radians (2 * Real.pi) + 2 * Real.pi⟩
  else
    ⟨frem a.radians (2 * Real.pi)⟩

/-- `Angle::normalize_signed`: reduce modulo `2 * PI`, then subtract `2 * PI`
if the remainder is at least `PI`, or add `2 * PI` if it is below `-PI`. -/
def Angle.normalize_signed (a : Angle) : Angle :=
  if Real.pi ≤ frem a.radians (2 * Real.pi) then
    ⟨frem a.radians (2 * Real.pi) - 2 * Real.pi⟩
  else if frem a.radians (2 * Real.pi) < -Real.pi then
    ⟨frem a.radians (2 * Real.pi) + 2 * Real.pi⟩
  else
    ⟨frem a.radians (2 * Real.pi)⟩

/-- `impl Add for Angle`. -/
def Angle.add (a b : Angle) : Angle := ⟨a.radians + b.radians⟩

/-- `impl Sub for Angle`. -/
def Angle.sub (a b : Angle) : Angle := ⟨a.radians - b.radians⟩

/-- `impl Neg for Angle`. -/
def Angle.neg (a : Angle) : Angle := ⟨-a.radians⟩

/-- `impl Div Angle for Angle` (output `f64`). -/
def Angle.div_same (a b : Angle) : ℝ := a.radians / b.radians

/-- `struct MassFlowRate { kg_per_s: f64 }` (src/units/mass_flow_rate.rs). -/
structure MassFlowRate where
  kg_per_s : ℝ

/-- `MassFlowRate::from_kg_per_s`. -/
def MassFlowRate.from_kg_per_s (kgps : ℝ) : MassFlowRate := ⟨kgps⟩

/-- `MassFlowRate::from_lb_per_s`: `lbps * 0.453592`. -/
def MassFlowRate.from_lb_per_s (lbps : ℝ) : MassFlowRate := ⟨lbps * 0.453592⟩

/-- `MassFlowRate::from_tonnes_per_s`: `tps * 1000.0`. -/
def MassFlowRate.from_tonnes_per_s (tps : ℝ) : MassFlowRate := ⟨tps * 1000⟩

/-- `MassFlowRate::from_kg_per_min`: `kgpm / 60.0`. -/
def MassFlowRate.from_kg_per_min (kgpm : ℝ) : MassFlowRate := ⟨kgpm / 60⟩

/-- `MassFlowRate::as_kg_per_s`. -/
def MassFlowRate.as_kg_per_s (m : MassFlowRate) : ℝ := m.kg_per_s

/-- `MassFlowRate::as_lb_per_s`: `kg_per_s / 0.453592`. -/
def MassFlowRate.as_lb_per_s (m : MassFlowRate) : ℝ := m.kg_per_s / 0.453592

/-- `MassFlowRate::as_tonnes_per_s`: `kg_per_s / 1000.0`. -/
def MassFlowRate.as_tonnes_per_s (m : MassFlowRate) : ℝ := m.kg_per_s / 1000

/-- `MassFlowRate::as_kg_per_min`: `kg_per_s * 60.0`. -/
def MassFlowRate.as_kg_per_min (m : MassFlowRate) : ℝ := m.kg_per_s * 60

/-- `impl Add for MassFlowRate`. -/
def MassFlowRate.add (a b : MassFlowRate) : MassFlowRate := ⟨a.kg_per_s + b.kg_per_s⟩

/-- `impl Sub for MassFlowRate`. -/
def MassFlowRate.sub (a b : MassFlowRate) : MassFlowRate := ⟨a.kg_per_s - b.kg_per_s⟩

/-- `struct SpecificImpulse { seconds: f64 }` (src/units/specific_impulse.rs). -/
structure SpecificImpulse where
  seconds : ℝ

/-- `SpecificImpulse::from_seconds`. -/
def SpecificImpulse.from_seconds (s : ℝ) : SpecificImpulse := ⟨s⟩

/-- `SpecificImpulse::from_exhaust_velocity`: `ve_mps / Self::G0`. -/
def SpecificImpulse.from_exhaust_velocity (ve_mps : ℝ) : SpecificImpulse :=
  ⟨ve_mps / SpecificImpulseG0⟩

/-- `SpecificImpulse::as_seconds`. -/
def SpecificImpulse.as_seconds (i : SpecificImpulse) : ℝ := i.seconds

/-- `SpecificImpulse::as_exhaust_velocity`: `seconds * Self::G0`. -/
def SpecificImpulse.as_exhaust_velocity (i : SpecificImpulse) : ℝ :=
  i.seconds * SpecificImpulseG0

/-- `SpecificImpulse::as_exhaust_velocity_kmps`: `seconds * Self::G0 / 1000.0`. -/
def SpecificImpulse.as_exhaust_velocity_kmps (i : SpecificImpulse) : ℝ :=
  i.seconds * SpecificImpulseG0 / 1000

/-- `impl Add for SpecificImpulse`. -/
def SpecificImpulse.add (a b : SpecificImpulse) : SpecificImpulse := ⟨a.seconds + b.seconds⟩

/-- `impl Sub for SpecificImpulse`. -/
def SpecificImpulse.sub (a b : SpecificImpulse) : SpecificImpulse := ⟨a.seconds - b.seconds⟩

/-- `Force::specific_impulse` (src/units/force.rs): the local constant
`G0 = 9.80665` and `isp_seconds = newtons / (mass_flow_rate.as_kg_per_s() * G0)`. -/
def Force.specific_impulse (f : Force) (mass_flow_rate : MassFlowRate) : SpecificImpulse :=
  SpecificImpulse.from_seconds (f.newtons / (mass_flow_rate.as_kg_per_s * 9.80665))

/-- `calculate_delta_v` (examples/rocket_equation.rs): the Tsiolkovsky rocket
equation, with the mass ratio written as the quotient of `as_kilograms` values
and the natural logarithm taken by `f64::ln`. -/
def calculate_delta_v (isp : SpecificImpulse) (wet_mass dry_mass : Mass) : Velocity :=
  Velocity.from_meters_per_second
    (isp.as_exhaust_velocity * Real.log (wet_mass.as_kilograms / dry_mass.as_kilograms))

/-- The eight quantity kinds of the library (one per source file under
src/units/). -/
inductive Kind where
  | length
  | velocity
  | mass
  | force
  | pressure
  | angle
  | massFlowRate
  | specificImpulse
  deriving DecidableEq

/-- Which kinds implement same-kind division (`impl Div Kind for Kind` with
`Output = f64`) in the source.  length.rs, velocity.rs, mass.rs, force.rs,
pressure.rs and angle.rs each contain such an impl; mass_flow_rate.rs and
specific_impulse.rs contain only the scalar `impl Div f64`. -/
def hasSameKindDiv : Kind → Bool
  | .length => true
  | .velocity => true
  | .mass => true
  | .force => true
  | .pressure => true
  | .angle => true
  | .massFlowRate => false
  | .specificImpulse => false

/-- An IEEE-754-style extended value: a finite `f64` idealised as an exact
real, one of the two infinities, or NaN.  Used to model the `f64` operations
of the source where their infinity/NaN behaviour matters. -/
inductive F64 where
  | fin (x : ℝ)
  | posInf
  | negInf
  | nan

/-- IEEE `f64` division on extended values (finite values idealised as exact
reals; signed zero is not modelled, a zero divisor is treated as `+0.0`).
Division of a nonzero finite value by zero gives a signed infinity, `0/0`
gives NaN, and NaN propagates. -/
def fdiv : F64 → F64 → F64
  | .nan, _ => .nan
  | .fin _, .nan => .nan
  | .posInf, .nan => .nan
  | .negInf, .nan => .nan
  | .fin x, .fin y =>
      if y = 0 then
        if 0 < x then .posInf else if x < 0 then .negInf else .nan
      else .fin (x / y)
  | .fin _, .posInf => .fin 0
  | .fin _, .negInf => .fin 0
  | .posInf, .fin y => if 0 ≤ y then .posInf else .negInf
  | .negInf, .fin y => if 0 ≤ y then .negInf else .posInf
  | .posInf, .posInf => .nan
  | .posInf, .negInf => .nan
  | .negInf, .posInf => .nan
  | .negInf, .negInf => .nan

/-- IEEE `f64` multiplication on extended values: `0 * inf` gives NaN and NaN
propagates. -/
def fmul : F64 → F64 → F64
  | .nan, _ => .nan
  | .fin _, .nan => .nan
  | .posInf, .nan => .nan
  | .negInf, .nan => .nan
  | .fin x, .fin y => .fin (x * y)
  | .fin x, .posInf => if 0 < x then .posInf else if x < 0 then .negInf else .nan
  | .fin x, .negInf => if 0 < x then .negInf else if x < 0 then .posInf else .nan
  | .posInf, .fin y => if 0 < y then .posInf else if y < 0 then .negInf else .nan
  | .negInf, .fin y => if 0 < y then .negInf else if y < 0 then .posInf else .nan
  | .posInf, .posInf => .posInf
  | .posInf, .negInf => .negInf
  | .negInf, .posInf => .negInf
  | .negInf, .negInf => .posInf

/-- IEEE `f64::ln` on extended values: `ln` of a negative value or of NaN is
NaN, `ln 0 = -inf`, `ln (+inf) = +inf`. -/
def fln : F64 → F64
  | .nan => .nan
  | .posInf => .posInf
  | .negInf => .nan
  | .fin x => if 0 < x then .fin (Real.log x) else if x = 0 then .negInf else .nan

/-- `Force::specific_impulse` evaluated in the extended `f64` model:
`newtons / (kg_per_s * 9.80665)`. -/
def specific_impulse_f (thrust mdot : F64) : F64 :=
  fdiv thrust (fmul mdot (.fin 9.80665))

/-- `calculate_delta_v` evaluated in the extended `f64` model:
`(seconds * G0) * ln (wet / dry)`. -/
def calculate_delta_v_f (isp wet dry : F64) : F64 :=
  fmul (fmul isp (.fin 9.80665)) (fln (fdiv wet dry))

/-- IEEE `f64` equality (the `PartialEq` of `f64`): NaN is not equal to
anything, infinities are equal only to themselves, finite values compare as
reals. -/
def f64_eq : F64 → F64 → Prop
  | .fin x, .fin y => x = y
  | .posInf, .posInf => True
  | .negInf, .negInf => True
  | _, _ => False

/-- IEEE `f64` strict ordering (the `PartialOrd` of `f64`): NaN is unordered
with everything, `-inf` is below all non-NaN values, `+inf` above. -/
def f64_lt : F64 → F64 → Prop
  | .fin x, .fin y => x < y
  | .fin _, .posInf => True
  | .negInf, .fin _ => True
  | .negInf, .posInf => True
  | _, _ => False

/-- IEEE `f64` non-strict ordering: `a <= b` holds when `a < b` or `a == b`
(false whenever either side is NaN). -/
def f64_le (a b : F64) : Prop := f64_lt a b ∨ f64_eq a b

/-- The `Length` newtype with its scalar kept as an extended `f64` value,
to model the derived `PartialEq`/`PartialOrd` of
`#[derive(..., PartialEq, PartialOrd)] struct Length { meters: f64 }`.
All eight kinds derive these two traits identically, so this one structure
stands for the comparison behaviour of each of them. -/
structure LengthF where
  meters : F64

/-- The derived `PartialEq` of `Length`: field-wise `f64` equality. -/
def LengthF.eq (a b : LengthF) : Prop := f64_eq a.meters b.meters

/-- The derived `PartialOrd` strict comparison of `Length`. -/
def LengthF.lt (a b : LengthF) : Prop := f64_lt a.meters b.meters

/-- The derived `PartialOrd` non-strict comparison of `Length`. -/
def LengthF.le (a b : LengthF) : Prop := f64_le a.meters b.meters

/-- Display units of `impl Display for Force` (src/units/force.rs). -/
inductive ForceDisplayUnit where
  | meganewtons
  | kilonewtons
  | newtons
  deriving DecidableEq

/-- The unit chosen by `impl Display for Force`:
`if self.newtons.abs() >= 1_000_000.0 { MN } else if self.newtons.abs() >=
1000.0 { kN } else { N }`. -/
def Force.display_unit (f : Force) : ForceDisplayUnit :=
  if 1000000 ≤ |f.newtons| then .meganewtons
  else if 1000 ≤ |f.newtons| then .kilonewtons
  else .newtons

/-- Display units of `impl Display for Pressure` (src/units/pressure.rs). -/
inductive PressureDisplayUnit where
  | kilopascals
  | pascals
  deriving DecidableEq

/-- The unit chosen by `impl Display for Pressure`:
`if self.pascals >= 1000.0 { kPa } else { Pa }` — note the signed value, with
no absolute value taken. -/
def Pressure.display_unit (p : Pressure) : PressureDisplayUnit :=
  if 1000 ≤ p.pascals then .kilopascals else .pascals

/-- Marker for a fixed display unit (the remaining six kinds format with one
hardcoded unit: m, m/s, kg, deg, kg/s, s respectively). -/
inductive FixedDisplayUnit where
  | fixedUnit
  deriving DecidableEq

/-- `impl Display for Length` always renders in meters. -/
def Length.display_unit (_ : Length) : FixedDisplayUnit := .fixedUnit

/-- `impl Display for Velocity` always renders in m/s. -/
def Velocity.display_unit (_ : Velocity) : FixedDisplayUnit := .fixedUnit

/-- `impl Display for Mass` always renders in kg. -/
def Mass.display_unit (_ : Mass) : FixedDisplayUnit := .fixedUnit

/-- `impl Display for Angle` always renders in degrees. -/
def Angle.display_unit (_ : Angle) : FixedDisplayUnit := .fixedUnit

/-- `impl Display for MassFlowRate` always renders in kg/s. -/
def MassFlowRate.display_unit (_ : MassFlowRate) : FixedDisplayUnit := .fixedUnit

/-- `impl Display for SpecificImpulse` always renders in seconds. -/
def SpecificImpulse.display_unit (_ : SpecificImpulse) : FixedDisplayUnit := .fixedUnit

/-- The Rust remainder of `x` by a positive modulus lies strictly between
`-y` and `y`. -/
lemma frem_bounds {x y : ℝ} (hy : 0 < y) : -y < frem x y ∧ frem x y < y := by
  unfold frem ftrunc
  have hxy : x / y * y = x := div_mul_cancel₀ x hy.ne'
  by_cases h : 0 ≤ x / y
  · rw [if_pos h]
    have h1 : (⌊x / y⌋ : ℝ) ≤ x / y := Int.floor_le _
    have h2 : x / y - 1 < (⌊x / y⌋ : ℝ) := Int.sub_one_lt_floor _
    constructor
    · nlinarith
    · nlinarith
  · rw [if_neg h]
    have h1 : x / y ≤ (⌈x / y⌉ : ℝ) := Int.le_ceil _
    have h2 : (⌈x / y⌉ : ℝ) < x / y + 1 := Int.ceil_lt_add_one _
    constructor
    · nlinarith
    · nlinarith

/-- The Rust remainder fixes any value already strictly inside `(-y, y)`. -/
lemma frem_eq_self {y r : ℝ} (hy : 0 < y) (h1 : -y < r) (h2 : r < y) :
    frem r y = r := by
  unfold frem ftrunc
  by_cases h : 0 ≤ r / y
  · rw [if_pos h]
    have hfl : ⌊r / y⌋ = 0 := by
      rw [Int.floor_eq_zero_iff]
      exact ⟨h, (div_lt_one hy).mpr h2⟩
    rw [hfl]
    simp
  · rw [if_neg h]
    have hcl : ⌈r / y⌉ = 0 := by
      rw [Int.ceil_eq_zero_iff]
      refine ⟨?_, le_of_lt (lt_of_not_le h)⟩
      show (-1 : ℝ) < r / y
      rw [lt_div_iff₀ hy]
      linarith
    rw [hcl]
    simp

/-- `Angle::normalize` lands in `[0, 2 * PI)`. -/
lemma normalize_radians_bounds (a : Angle) :
    0 ≤ (Angle.normalize a).radians ∧ (Angle.normalize a).radians < 2 * Real.pi := by
  have hy : (0 : ℝ) < 2 * Real.pi := by positivity
  obtain ⟨hlo, hhi⟩ := frem_bounds (x := a.radians) hy
  unfold Angle.normalize
  split_ifs with h
  · refine ⟨?_, ?_⟩ <;> (dsimp only; linarith)
  · exact ⟨le_of_not_lt h, hhi⟩

/-- `Angle::normalize_signed` lands in `[-PI, PI)`. -/
lemma normalize_signed_radians_bounds (a : Angle) :
    -Real.pi ≤ (Angle.normalize_signed a).radians ∧
      (Angle.normalize_signed a).radians < Real.pi := by
  have hpi : (0 : ℝ) < Real.pi := Real.pi_pos
  have hy : (0 : ℝ) < 2 * Real.pi := by positivity
  obtain ⟨hlo, hhi⟩ := frem_bounds (x := a.radians) hy
  unfold Angle.normalize_signed
  split_ifs with h1 h2
  · refine ⟨?_, ?_⟩ <;> (dsimp only; linarith)
  · refine ⟨?_, ?_⟩ <;> (dsimp only; linarith)
  · exact ⟨le_of_not_lt h2, lt_of_not_le h1⟩

/-- `Angle::normalize` is the identity on angles already in `[0, 2 * PI)`. -/
lemma normalize_eq_of_bounds {r : ℝ} (h1 : 0 ≤ r) (h2 : r < 2 * Real.pi) :
    Angle.normalize ⟨r⟩ = ⟨r⟩ := by
  have hy : (0 : ℝ) < 2 * Real.pi := by positivity
  have hr : frem r (2 * Real.pi) = r := frem_eq_self hy (by linarith) h2
  unfold Angle.normalize
  rw [show (Angle.mk r).radians = r from rfl, hr, if_neg (not_lt.mpr h1)]

/-- `Angle::normalize_signed` is the identity on angles already in
`[-PI, PI)`. -/
lemma normalize_signed_eq_of_bounds {r : ℝ} (h1 : -Real.pi ≤ r) (h2 : r < Real.pi) :
    Angle.normalize_signed ⟨r⟩ = ⟨r⟩ := by
  have hpi : (0 : ℝ) < Real.pi := Real.pi_pos
  have hy : (0 : ℝ) < 2 * Real.pi := by positivity
  have hr : frem r (2 * Real.pi) = r := frem_eq_self hy (by linarith) (by linarith)
  unfold Angle.normalize_signed
  rw [show (Angle.mk r).radians = r from rfl, hr, if_neg (not_le.mpr h2),
    if_neg (not_lt.mpr h1)]

/-- C4: for every input angle, `Angle::normalize` returns a radian value in
`[0, 2 * PI)` and `Angle::normalize_signed` returns a radian value in
`[-PI, PI)`, including for negative and large-magnitude inputs. -/
theorem c4_normalize_range :
    ∀ a : Angle,
      (0 ≤ (a.normalize).as_radians ∧ (a.normalize).as_radians < 2 * Real.pi) ∧
        (-Real.pi ≤ (a.normalize_signed).as_radians ∧
          (a.normalize_signed).as_radians < Real.pi) :=
  fun a => ⟨normalize_radians_bounds a, normalize_signed_radians_bounds a⟩

/-- C9: `Angle::normalize` and `Angle::normalize_signed` are idempotent. -/
theorem c9_normalize_idempotent :
    ∀ a : Angle,
      (a.normalize).normalize = a.normalize ∧
        (a.normalize_signed).normalize_signed = a.normalize_signed := by
  intro a
  constructor
  · obtain ⟨h1, h2⟩ := normalize_radians_bounds a
    exact normalize_eq_of_bounds h1 h2
  · obtain ⟨h1, h2⟩ := normalize_signed_radians_bounds a
    exact normalize_signed_eq_of_bounds h1 h2

/-- C10: `Pressure::sea_level` equals `Pressure::from_atmospheres(1.0)`, a
pressure of exactly 101325 pascals. -/
theorem c10_sea_level :
    Pressure.sea_level = Pressure.from_atmospheres 1 ∧
      Pressure.sea_level.as_pascals = 101325 := by
  refine ⟨rfl, ?_⟩
  show (1 : ℝ) * 101325 = 101325
  norm_num

/-- C7: for all same-kind quantities, `(a + b) - b = a` (exactly, in the
real-number idealisation of `f64`), `a - a` is the kind's canonical zero, and
addition/subtraction act component-wise on canonical values, for each of the
eight kinds. -/
theorem c7_add_sub_inverse :
    (∀ a b : Length, (a.add b).sub b = a ∧ a.sub a = Length.from_meters 0 ∧
      (a.add b).as_meters = a.as_meters + b.as_meters ∧
      (a.sub b).as_meters = a.as_meters - b.as_meters) ∧
    (∀ a b : Velocity, (a.add b).sub b = a ∧ a.sub a = Velocity.from_meters_per_second 0 ∧
      (a.add b).as_meters_per_second = a.as_meters_per_second + b.as_meters_per_second ∧
      (a.sub b).as_meters_per_second = a.as_meters_per_second - b.as_meters_per_second) ∧
    (∀ a b : Mass, (a.add b).sub b = a ∧ a.sub a = Mass.from_kilograms 0 ∧
      (a.add b).as_kilograms = a.as_kilograms + b.as_kilograms ∧
      (a.sub b).as_kilograms = a.as_kilograms - b.as_kilograms) ∧
    (∀ a b : Force, (a.add b).sub b = a ∧ a.sub a = Force.from_newtons 0 ∧
      (a.add b).as_newtons = a.as_newtons + b.as_newtons ∧
      (a.sub b).as_newtons = a.as_newtons - b.as_newtons) ∧
    (∀ a b : Pressure, (a.add b).sub b = a ∧ a.sub a = Pressure.from_pascals 0 ∧
      (a.add b).as_pascals = a.as_pascals + b.as_pascals ∧
      (a.sub b).as_pascals = a.as_pascals - b.as_pascals) ∧
    (∀ a b : Angle, (a.add b).sub b = a ∧ a.sub a = Angle.from_radians 0 ∧
      (a.add b).as_radians = a.as_radians + b.as_radians ∧
      (a.sub b).as_radians = a.as_radians - b.as_radians) ∧
    (∀ a b : MassFlowRate, (a.add b).sub b = a ∧ a.sub a = MassFlowRate.from_kg_per_s 0 ∧
      (a.add b).as_kg_per_s = a.as_kg_per_s + b.as_kg_per_s ∧
      (a.sub b).as_kg_per_s = a.as_kg_per_s - b.as_kg_per_s) ∧
    (∀ a b : SpecificImpulse, (a.add b).sub b = a ∧ a.sub a = SpecificImpulse.from_seconds 0 ∧
      (a.add b).as_seconds = a.as_seconds + b.as_seconds ∧
      (a.sub b).as_seconds = a.as_seconds - b.as_seconds) := by
  refine ⟨fun a b => ⟨?_, ?_, rfl, rfl⟩, fun a b => ⟨?_, ?_, rfl, rfl⟩,
    fun a b => ⟨?_, ?_, rfl, rfl⟩, fun a b => ⟨?_, ?_, rfl, rfl⟩,
    fun a b => ⟨?_, ?_, rfl, rfl⟩, fun a b => ⟨?_, ?_, rfl, rfl⟩,
    fun a b => ⟨?_, ?_, rfl, rfl⟩, fun a b => ⟨?_, ?_, rfl, rfl⟩⟩
  all_goals cases a
  all_goals cases b
  all_goals simp only [Length.add, Length.sub, Length.from_meters,
    Velocity.add, Velocity.sub, Velocity.from_meters_per_second,
    Mass.add, Mass.sub, Mass.from_kilograms, Force.add, Force.sub, Force.from_newtons,
    Pressure.add, Pressure.sub, Pressure.from_pascals, Angle.add, Angle.sub,
    Angle.from_radians, MassFlowRate.add, MassFlowRate.sub, MassFlowRate.from_kg_per_s,
    SpecificImpulse.add, SpecificImpulse.sub, SpecificImpulse.from_seconds,
    Length.mk.injEq, Velocity.mk.injEq, Mass.mk.injEq, Force.mk.injEq,
    Pressure.mk.injEq, Angle.mk.injEq, MassFlowRate.mk.injEq, SpecificImpulse.mk.injEq]
  all_goals ring

/-- C5 counterexample: same-kind division is not defined for every one of the
eight kinds — mass_flow_rate.rs and specific_impulse.rs contain no
`impl Div Kind for Kind`. -/
theorem c5_div_counterexample :
    hasSameKindDiv Kind.massFlowRate = false ∧
      hasSameKindDiv Kind.specificImpulse = false :=
  ⟨rfl, rfl⟩

/-- C5 amended: exactly six of the eight kinds (Length, Velocity, Mass, Force,
Pressure, Angle) define same-kind division; where defined it yields the ratio
of canonical values, and an IEEE division by a zero-valued operand yields an
infinity or NaN rather than an error. -/
theorem c5_same_kind_div_amended :
    (∀ k : Kind, hasSameKindDiv k = true ↔
        (k = Kind.length ∨ k = Kind.velocity ∨ k = Kind.mass ∨ k = Kind.force ∨
          k = Kind.pressure ∨ k = Kind.angle)) ∧
    (∀ a b : Length, a.div_same b = a.as_meters / b.as_meters) ∧
    (∀ a b : Velocity, a.div_same b = a.as_meters_per_second / b.as_meters_per_second) ∧
    (∀ a b : Mass, a.div_same b = a.as_kilograms / b.as_kilograms) ∧
    (∀ a b : Force, a.div_same b = a.as_newtons / b.as_newtons) ∧
    (∀ a b : Pressure, a.div_same b = a.as_pascals / b.as_pascals) ∧
    (∀ a b : Angle, a.div_same b = a.as_radians / b.as_radians) ∧
    (∀ x : ℝ, fdiv (F64.fin x) (F64.fin 0) = F64.posInf ∨
        fdiv (F64.fin x) (F64.fin 0) = F64.negInf ∨
        fdiv (F64.fin x) (F64.fin 0) = F64.nan) := by
  refine ⟨?_, fun a b => rfl, fun a b => rfl, fun a b => rfl, fun a b => rfl,
    fun a b => rfl, fun a b => rfl, ?_⟩
  · intro k
    cases k <;> simp [hasSameKindDiv]
  · intro x
    rcases lt_trichotomy x 0 with h | h | h
    · right; left
      simp [fdiv, h, lt_asymm h]
    · subst h
      right; right
      simp [fdiv]
    · left
      simp [fdiv, h]

/-- C6: equality and ordering of quantities are the field-wise IEEE `f64`
comparisons of their canonical scalars: on finite values they agree with the
real-number order, a NaN-holding quantity is unequal to and unordered with
every quantity (itself included), and the order is not total. -/
theorem c6_float_comparisons :
    (∀ a b : LengthF, (a.eq b ↔ f64_eq a.meters b.meters) ∧
        (a.lt b ↔ f64_lt a.meters b.meters) ∧ (a.le b ↔ f64_le a.meters b.meters)) ∧
    (∀ x y : ℝ, (f64_eq (F64.fin x) (F64.fin y) ↔ x = y) ∧
        (f64_lt (F64.fin x) (F64.fin y) ↔ x < y) ∧
        (f64_le (F64.fin x) (F64.fin y) ↔ x ≤ y)) ∧
    (∀ q : LengthF,
        (LengthF.eq ⟨F64.nan⟩ q ↔ False) ∧ (LengthF.eq q ⟨F64.nan⟩ ↔ False) ∧
        (LengthF.lt ⟨F64.nan⟩ q ↔ False) ∧ (LengthF.lt q ⟨F64.nan⟩ ↔ False) ∧
        (LengthF.le ⟨F64.nan⟩ q ↔ False) ∧ (LengthF.le q ⟨F64.nan⟩ ↔ False)) ∧
    (∃ a b : LengthF, (a.le b ↔ False) ∧ (b.le a ↔ False)) := by
  refine ⟨fun a b => ⟨Iff.rfl, Iff.rfl, Iff.rfl⟩, ?_, ?_, ?_⟩
  · intro x y
    refine ⟨Iff.rfl, Iff.rfl, ?_⟩
    show x < y ∨ x = y ↔ x ≤ y
    exact le_iff_lt_or_eq.symm
  · intro q
    obtain ⟨m⟩ := q
    cases m <;> simp [LengthF.eq, LengthF.lt, LengthF.le, f64_eq, f64_lt, f64_le]
  · refine ⟨⟨F64.nan⟩, ⟨F64.nan⟩, ?_, ?_⟩ <;>
      simp [LengthF.le, f64_le, f64_eq, f64_lt]

/-- C8 counterexample: `Pressure`'s display-unit choice is not by magnitude —
at -2000 Pa the magnitude is at least 1000 Pa, yet the code's
`pascals >= 1000.0` test fails and Pa (not kPa) is chosen. -/
theorem c8_pressure_display_counterexample :
    Pressure.display_unit (Pressure.from_pascals (-2000)) = PressureDisplayUnit.pascals ∧
      (1000 : ℝ) ≤ |(Pressure.from_pascals (-2000)).as_pascals| := by
  constructor
  · unfold Pressure.display_unit Pressure.from_pascals
    rw [if_neg]
    norm_num
  · show (1000 : ℝ) ≤ |(-2000 : ℝ)|
    rw [abs_of_nonpos (by norm_num)]
    norm_num

/-- C8 amended: `Force` display selects MN/kN/N by magnitude of the stored
newtons (thresholds 1000000 and 1000); `Pressure` display selects kPa exactly
when the signed stored pascals value is at least 1000 (no absolute value), Pa
otherwise; every other kind renders in one fixed display unit. -/
theorem c8_display_unit_selection :
    (∀ f : Force,
        (f.display_unit = ForceDisplayUnit.meganewtons ↔ 1000000 ≤ |f.as_newtons|) ∧
        (f.display_unit = ForceDisplayUnit.kilonewtons ↔
          1000 ≤ |f.as_newtons| ∧ |f.as_newtons| < 1000000) ∧
        (f.display_unit = ForceDisplayUnit.newtons ↔ |f.as_newtons| < 1000)) ∧
    (∀ p : Pressure,
        (p.display_unit = PressureDisplayUnit.kilopascals ↔ 1000 ≤ p.as_pascals) ∧
        (p.display_unit = PressureDisplayUnit.pascals ↔ p.as_pascals < 1000)) ∧
    (∀ a b : Length, a.display_unit = b.display_unit) ∧
    (∀ a b : Velocity, a.display_unit = b.display_unit) ∧
    (∀ a b : Mass, a.display_unit = b.display_unit) ∧
    (∀ a b : Angle, a.display_unit = b.display_unit) ∧
    (∀ a b : MassFlowRate, a.display_unit = b.display_unit) ∧
    (∀ a b : SpecificImpulse, a.display_unit = b.display_unit) := by
  refine ⟨?_, ?_, fun a b => rfl, fun a b => rfl, fun a b => rfl, fun a b => rfl,
    fun a b => rfl, fun a b => rfl⟩
  · intro f
    unfold Force.display_unit Force.as_newtons
    split_ifs with h1 h2 <;> refine ⟨?_, ?_, ?_⟩ <;> simp_all
    all_goals linarith
  · intro p
    unfold Pressure.display_unit Pressure.as_pascals
    split_ifs with h <;> refine ⟨?_, ?_⟩ <;> simp_all

/-- C1: for every kind and every supported unit, `from_U(v).as_U() = v`
exactly in the real-number idealisation of `f64` (hence within the spec's
1e-4 relative tolerance); construction is multiplication by the unit's fixed
factor and the accessor is division by the same factor, shown explicitly for
the cited `Length::from_feet`/`Length::as_feet` pair. -/
theorem c1_from_as_roundtrip :
    (∀ v sos : ℝ, sos ≠ 0 → (Velocity.from_mach v sos).as_mach sos = v) ∧
    (∀ v : ℝ, (Length.from_feet v).as_meters = v * 0.3048) ∧
    (∀ l : Length, l.as_feet = l.as_meters / 0.3048) ∧
    (∀ v : ℝ,
      (Length.from_meters v).as_meters = v ∧
      (Length.from_kilometers v).as_kilometers = v ∧
      (Length.from_feet v).as_feet = v ∧
      (Length.from_nautical_miles v).as_nautical_miles = v ∧
      (Length.from_miles v).as_miles = v ∧
      (Velocity.from_meters_per_second v).as_meters_per_second = v ∧
      (Velocity.from_kilometers_per_second v).as_kilometers_per_second = v ∧
      (Velocity.from_kilometers_per_hour v).as_kilometers_per_hour = v ∧
      (Velocity.from_feet_per_second v).as_feet_per_second = v ∧
      (Velocity.from_knots v).as_knots = v ∧
      (Velocity.from_miles_per_hour v).as_miles_per_hour = v ∧
      (Mass.from_kilograms v).as_kilograms = v ∧
      (Mass.from_grams v).as_grams = v ∧
      (Mass.from_tonnes v).as_tonnes = v ∧
      (Mass.from_pounds v).as_pounds = v ∧
      (Mass.from_slugs v).as_slugs = v ∧
      (Force.from_newtons v).as_newtons = v ∧
      (Force.from_kilonewtons v).as_kilonewtons = v ∧
      (Force.from_meganewtons v).as_meganewtons = v ∧
      (Force.from_pounds_force v).as_pounds_force = v ∧
      (Force.from_kilopounds_force v).as_kilopounds_force = v ∧
      (Pressure.from_pascals v).as_pascals = v ∧
      (Pressure.from_kilopascals v).as_kilopascals = v ∧
      (Pressure.from_megapascals v).as_megapascals = v ∧
      (Pressure.from_bar v).as_bar = v ∧
      (Pressure.from_atmospheres v).as_atmospheres = v ∧
      (Pressure.from_psi v).as_psi = v ∧
      (Pressure.from_inches_hg v).as_inches_hg = v ∧
      (Pressure.from_mmhg v).as_mmhg = v ∧
      (Angle.from_radians v).as_radians = v ∧
      (Angle.from_degrees v).as_degrees = v ∧
      (Angle.from_arcminutes v).as_arcminutes = v ∧
      (Angle.from_arcseconds v).as_arcseconds = v ∧
      (Angle.from_revolutions v).as_revolutions = v ∧
      (MassFlowRate.from_kg_per_s v).as_kg_per_s = v ∧
      (MassFlowRate.from_lb_per_s v).as_lb_per_s = v ∧
      (MassFlowRate.from_tonnes_per_s v).as_tonnes_per_s = v ∧
      (MassFlowRate.from_kg_per_min v).as_kg_per_min = v ∧
      (SpecificImpulse.from_seconds v).as_seconds = v ∧
      (SpecificImpulse.from_exhaust_velocity v).as_exhaust_velocity = v) := by
  refine ⟨?_, fun v => rfl, fun l => rfl, ?_⟩
  · intro v sos h
    show v * sos / sos = v
    field_simp
  · intro v
    and_intros <;>
      simp only [Length.from_meters, Length.as_meters, Length.from_kilometers,
        Length.as_kilometers, Length.from_feet, Length.as_feet,
        Length.from_nautical_miles, Length.as_nautical_miles, Length.from_miles,
        Length.as_miles, Velocity.from_meters_per_second, Velocity.as_meters_per_second,
        Velocity.from_kilometers_per_second, Velocity.as_kilometers_per_second,
        Velocity.from_kilometers_per_hour, Velocity.as_kilometers_per_hour,
        Velocity.from_feet_per_second, Velocity.as_feet_per_second,
        Velocity.from_knots, Velocity.as_knots, Velocity.from_miles_per_hour,
        Velocity.as_miles_per_hour, Mass.from_kilograms, Mass.as_kilograms,
        Mass.from_grams, Mass.as_grams, Mass.from_tonnes, Mass.as_tonnes,
        Mass.from_pounds, Mass.as_pounds, Mass.from_slugs, Mass.as_slugs,
        Force.from_newtons, Force.as_newtons, Force.from_kilonewtons,
        Force.as_kilonewtons, Force.from_meganewtons, Force.as_meganewtons,
        Force.from_pounds_force, Force.as_pounds_force, Force.from_kilopounds_force,
        Force.as_kilopounds_force, Pressure.from_pascals, Pressure.as_pascals,
        Pressure.from_kilopascals, Pressure.as_kilopascals, Pressure.from_megapascals,
        Pressure.as_megapascals, Pressure.from_bar, Pressure.as_bar,
        Pressure.from_atmospheres, Pressure.as_atmospheres, Pressure.from_psi,
        Pressure.as_psi, Pressure.from_inches_hg, Pressure.as_inches_hg,
        Pressure.from_mmhg, Pressure.as_mmhg, Angle.from_radians, Angle.as_radians,
        Angle.from_degrees, Angle.as_degrees, Angle.from_arcminutes,
        Angle.as_arcminutes, Angle.from_arcseconds, Angle.as_arcseconds,
        Angle.from_revolutions, Angle.as_revolutions, MassFlowRate.from_kg_per_s,
        MassFlowRate.as_kg_per_s, MassFlowRate.from_lb_per_s, MassFlowRate.as_lb_per_s,
        MassFlowRate.from_tonnes_per_s, MassFlowRate.as_tonnes_per_s,
        MassFlowRate.from_kg_per_min, MassFlowRate.as_kg_per_min,
        SpecificImpulse.from_seconds, SpecificImpulse.as_seconds,
        SpecificImpulse.from_exhaust_velocity, SpecificImpulse.as_exhaust_velocity,
        SpecificImpulseG0] <;>
      field_simp [Real.pi_ne_zero] <;>
      ring

/-- C1 witness: the Mach round-trip at Mach 2 with 340 m/s speed of sound. -/
theorem c1_from_as_roundtrip_witness :
    (Velocity.from_mach 2 340).as_mach 340 = 2 :=
  c1_from_as_roundtrip.1 2 340 (by norm_num)

/-- C2 counterexample: with zero thrust and zero mass flow the computed
specific impulse is `0.0 / 0.0 = NaN`, not an infinity, refuting the claim's
"if mdot is zero the result is infinity" at thrust 0 N. -/
theorem c2_zero_thrust_counterexample :
    specific_impulse_f (F64.fin 0) (F64.fin 0) = F64.nan ∧
      F64.nan ≠ F64.posInf ∧ F64.nan ≠ F64.negInf := by
  refine ⟨?_, by simp, by simp⟩
  simp [specific_impulse_f, fmul, fdiv]

/-- C2 amended: `Force::specific_impulse` returns `newtons / (kg_per_s * g0)`
seconds with `g0 = 9.80665` (the value of `SpecificImpulse::G0`); with zero
mass flow the IEEE result is `+inf` for positive thrust and `-inf` for
negative thrust (NaN when the thrust is zero too), and no error is signaled;
the cited F-1 scenario (6,770,000 N, 2578 kg/s) gives a specific impulse
within 5 s of 268 s. -/
theorem c2_specific_impulse_amended :
    (∀ (f : Force) (mdot : MassFlowRate),
        (f.specific_impulse mdot).as_seconds =
          f.as_newtons / (mdot.as_kg_per_s * SpecificImpulseG0)) ∧
    SpecificImpulseG0 = 9.80665 ∧
    (∀ x : ℝ, 0 < x → specific_impulse_f (F64.fin x) (F64.fin 0) = F64.posInf) ∧
    (∀ x : ℝ, x < 0 → specific_impulse_f (F64.fin x) (F64.fin 0) = F64.negInf) ∧
    |(Force.specific_impulse (Force.from_newtons 6770000)
        (MassFlowRate.from_kg_per_s 2578)).as_seconds - 268| ≤ 5 := by
  refine ⟨fun f mdot => rfl, rfl, ?_, ?_, ?_⟩
  · intro x hx
    simp [specific_impulse_f, fmul, fdiv, hx]
  · intro x hx
    simp [specific_impulse_f, fmul, fdiv, hx, lt_asymm hx]
  · show |(6770000 : ℝ) / (2578 * 9.80665) - 268| ≤ 5
    rw [abs_le]
    constructor <;> norm_num

/-- C2 witness: the zero-mass-flow arms at thrust 1 N and -1 N. -/
theorem c2_specific_impulse_witness :
    specific_impulse_f (F64.fin 1) (F64.fin 0) = F64.posInf ∧
      specific_impulse_f (F64.fin (-1)) (F64.fin 0) = F64.negInf :=
  ⟨c2_specific_impulse_amended.2.2.1 1 (by norm_num),
   c2_specific_impulse_amended.2.2.2.1 (-1) (by norm_num)⟩

/-- C3 counterexample: with a zero dry mass and a zero wet mass the computed
delta-v is NaN (`0/0` then `ln NaN` then `x * NaN`), not infinite, refuting
the claim's "a zero dry mass gives infinite delta-v". -/
theorem c3_delta_v_counterexample :
    calculate_delta_v_f (F64.fin 263) (F64.fin 0) (F64.fin 0) = F64.nan ∧
      F64.nan ≠ F64.posInf ∧ F64.nan ≠ F64.negInf := by
  refine ⟨?_, by simp, by simp⟩
  simp [calculate_delta_v_f, fmul, fdiv, fln]

/-- C3 amended: `calculate_delta_v` returns a Velocity whose m/s value is
`exhaust_velocity * ln(wet/dry)` with `exhaust_velocity = seconds * g0` and
the mass ratio equal to the generic same-kind ratio (`impl Div Mass for
Mass`); no input constraint is enforced: a zero dry mass gives `+inf` delta-v
when wet mass and isp are positive (NaN when the wet mass is also zero), and
`wet <= dry` gives zero or negative delta-v for nonnegative isp and positive
dry mass. -/
theorem c3_delta_v_amended :
    (∀ (isp : SpecificImpulse) (wet dry : Mass),
        calculate_delta_v isp wet dry =
          Velocity.from_meters_per_second
            (isp.as_exhaust_velocity * Real.log (wet.div_same dry))) ∧
    (∀ (isp : SpecificImpulse) (wet dry : Mass),
        (calculate_delta_v isp wet dry).as_meters_per_second =
          isp.as_seconds * SpecificImpulseG0 *
            Real.log (wet.as_kilograms / dry.as_kilograms)) ∧
    (∀ i w : ℝ, 0 < i → 0 < w →
        calculate_delta_v_f (F64.fin i) (F64.fin w) (F64.fin 0) = F64.posInf) ∧
    (∀ (isp : SpecificImpulse) (wet dry : Mass),
        0 ≤ isp.as_seconds → 0 ≤ wet.as_kilograms → 0 < dry.as_kilograms →
        wet.as_kilograms ≤ dry.as_kilograms →
        (calculate_delta_v isp wet dry).as_meters_per_second ≤ 0) := by
  refine ⟨fun isp wet dry => rfl, fun isp wet dry => rfl, ?_, ?_⟩
  · intro i w hi hw
    have hig : (0 : ℝ) < i * 9.80665 := by positivity
    simp [calculate_delta_v_f, fdiv, fmul, fln, hw, hig]
  · intro isp wet dry hisp hwet hdry hwd
    show isp.seconds * SpecificImpulseG0 * Real.log (wet.kilograms / dry.kilograms) ≤ 0
    have hlog : Real.log (wet.kilograms / dry.kilograms) ≤ 0 :=
      Real.log_nonpos (div_nonneg hwet hdry.le) ((div_le_one hdry).mpr hwd)
    have hve : 0 ≤ isp.seconds * SpecificImpulseG0 :=
      mul_nonneg hisp (by norm_num [SpecificImpulseG0])
    nlinarith [mul_nonneg hve (neg_nonneg.mpr hlog)]

/-- C3 witness: the zero-dry-mass arm at isp scalar 1 and wet scalar 1, and
the wet-not-exceeding-dry arm at isp 300 s, wet 1 kg, dry 2 kg. -/
theorem c3_delta_v_witness :
    calculate_delta_v_f (F64.fin 1) (F64.fin 1) (F64.fin 0) = F64.posInf ∧
      (calculate_delta_v (SpecificImpulse.from_seconds 300) (Mass.from_kilograms 1)
          (Mass.from_kilograms 2)).as_meters_per_second ≤ 0 :=
  ⟨c3_delta_v_amended.2.2.1 1 1 (by norm_num) (by norm_num),
   c3_delta_v_amended.2.2.2 (SpecificImpulse.from_seconds 300) (Mass.from_kilograms 1)
     (Mass.from_kilograms 2)
     (by norm_num [SpecificImpulse.from_seconds, SpecificImpulse.as_seconds])
     (by norm_num [Mass.from_kilograms, Mass.as_kilograms])
     (by norm_num [Mass.from_kilograms, Mass.as_kilograms])
     (by norm_num [Mass.from_kilograms, Mass.as_kilograms])⟩

end

end Aero
